import Mathlib

/-!
Shallow embedding of the breeding lifecycle engine of PigMasterAPI
(breeding.services.js, first document of src/unnamed/part_005, together
with the table shapes of the migration file src/unnamed/part_000).

Modelling conventions:
* Calendar dates are whole days, modelled as Int.  dayjs(d).add(n, "day")
  is d + n and isBefore is <.  getUTCDateString truncates a date to its
  UTC day; since the model already works in whole days it is the
  identity, and the presence or absence of the "T00:00:00Z" suffix on a
  stored date string is not modelled.
* Input fields that may be absent (undefined in JS) are Option values.
  An empty string and undefined are both falsy in JS; the model folds
  both into none.  A numeric 0 is falsy in JS, which the model keeps
  explicit (see truthyCount below).
* Human readable message strings are built with formatLocalDate, a pure
  presentation concern; no claim depends on them, so alert names and
  notification messages are modelled as structured templates that keep
  the template identity and its parameters, dropping only the rendering.
* SQL rows are records in lists; WHERE clauses are list filters, UPDATE
  statements are List.map that rewrites the matching rows, INSERT is an
  append.  Generated uuids are replaced by a counter kept in the store.
-/

namespace PigMaster

/-- A row of the pigs table (fields the engine reads or writes).
pig_id is globally UNIQUE in the schema. -/
structure Pig where
  pig_id : String
  farm_id : String
  gender : String
  pen_id : Option String
  is_pregnant : Bool
  pregnancy_start_date : Option Int
  expected_birth_date : Option Int
  actual_birth_date : Option Int
  is_deleted : Bool
  deriving Repr, DecidableEq

/-- A row of the breeding_records table. -/
structure BreedingRecord where
  id : String
  farm_id : String
  sow_id : String
  boar_id : String
  mating_date : Int
  expected_birth_date : Int
  actual_birth_date : Option Int
  number_of_piglets : Option Nat
  notes : Option String
  alert_date : Int
  is_deleted : Bool
  deriving Repr, DecidableEq

/-- The name of an alert, as a structured template: the JS code builds
these as strings from a fixed template plus the ids shown here. -/
inductive AlertName where
  | breedingSuccess (sow_id boar_id : String)
  | addNestingBox (sow_id : String)
  | checkBirth (sow_id : String)
  | fosteringCheck (sow_id : String)
  | removeNestingBox (sow_id : String)
  | weanPiglets (sow_id : String)
  | relocatePiglets (sow_id : String)
  deriving Repr, DecidableEq

/-- A row of the alerts table (fields the engine writes). -/
structure Alert where
  farm_id : String
  user_id : String
  pig_id : String
  pen_id : Option String
  name : AlertName
  alert_start_date : Int
  alert_type : String
  severity : String
  notify_on : List Int
  status : String
  is_deleted : Bool
  deriving Repr, DecidableEq

/-- The message template of a culling notification: the dispatch between
the two templates is the part the claims are about. -/
inductive CullReason where
  | lowLitterThreeGen
  | litterSizeOutOfRange (n : Nat)
  deriving Repr, DecidableEq

/-- A row of the notifications table as inserted by updateBreedingRecord
(type "culling_alert", title "Sow Culling Alert", priority "high"; the
data JSONB column holds sow_id and farm_id). -/
structure Notification where
  user_id : String
  ntype : String
  title : String
  reason : CullReason
  sow_id : String
  farm_id : String
  priority : String
  is_deleted : Bool
  deriving Repr, DecidableEq

/-- A row of the piglet_records table. -/
structure PigletRecord where
  id : String
  breeding_record_id : String
  farm_id : String
  piglet_number : String
  birth_weight : Option Int
  gender : Option String
  color : Option String
  status : String
  weaning_date : Option Int
  parent_male_id : Option String
  parent_female_id : Option String
  notes : Option String
  is_deleted : Bool
  deriving Repr, DecidableEq

/-- A row of the pig_birth_history table. -/
structure PigBirthHistory where
  id : String
  farm_id : String
  sow_id : String
  breeding_record_id : String
  birth_date : Option Int
  number_of_piglets : Nat
  notes : Option String
  is_deleted : Bool
  deriving Repr, DecidableEq

/-- The persistent store: one list per table the engine touches.  The
farms table is modelled as the list of ids of non deleted farms.
nextId replaces uuidv4 as the source of fresh identifiers. -/
structure DB where
  pigs : List Pig
  farms : List String
  breeding_records : List BreedingRecord
  alerts : List Alert
  notifications : List Notification
  piglet_records : List PigletRecord
  pig_birth_history : List PigBirthHistory
  nextId : Nat
  deriving Repr, DecidableEq

/-- Fresh identifier from the store counter (stand in for uuidv4). -/
def freshId (n : Nat) : String := "gen-" ++ toString n

/-- SELECT 1 FROM pigs WHERE pig_id AND farm_id AND gender AND is_deleted = 0. -/
def pigExists (db : DB) (pid farm gender : String) : Bool :=
  db.pigs.any fun p =>
    p.pig_id == pid && p.farm_id == farm && p.gender == gender && !p.is_deleted

/-- SELECT pen_id FROM pigs WHERE pig_id AND farm_id AND is_deleted = 0,
then rows[0]?.pen_id. -/
def penOf (db : DB) (pid farm : String) : Option String :=
  (db.pigs.find? fun p =>
    p.pig_id == pid && p.farm_id == farm && !p.is_deleted).bind (·.pen_id)

/-- The resolved (actual_birth_date NOT NULL), non deleted breeding
records of a sow on a farm. -/
def resolvedRecords (db : DB) (sow farm : String) : List BreedingRecord :=
  db.breeding_records.filter fun r =>
    r.sow_id == sow && r.farm_id == farm && r.actual_birth_date.isSome && !r.is_deleted

/-- ORDER BY actual_birth_date DESC LIMIT 1 over the resolved records,
reading only actual_birth_date: the model keeps just the maximum of the
birth dates (the only value the callers use). -/
def lastResolvedBirth (db : DB) (sow farm : String) : Option Int :=
  (resolvedRecords db sow farm).foldl
    (fun acc r =>
      match acc, r.actual_birth_date with
      | none, d => d
      | some m, some d => some (max m d)
      | some m, none => some m)
    none

/-- The guard of the re-mating check: last resolved birth D, weaning at
D + 42, one week after weaning at D + 49; reject when the new mating
date is strictly before that. -/
def tooSoonAfterWeaning (db : DB) (sow farm : String) (matingDate : Int) : Bool :=
  match lastResolvedBirth db sow farm with
  | some d => matingDate < d + 42 + 7
  | none => false

/-- The argument record of AlertService.createAlert. -/
structure AlertSpec where
  farm_id : String
  user_id : String
  pig_id : String
  pen_id : Option String
  name : AlertName
  alert_start_date : Int
  alert_type : String
  severity : String
  notify_on : List Int
  deriving Repr, DecidableEq

/-- The Alert row persisted for a createAlert call: the argument fields
plus status "pending". -/
def specToAlert (a : AlertSpec) : Alert :=
  { farm_id := a.farm_id, user_id := a.user_id, pig_id := a.pig_id,
    pen_id := a.pen_id, name := a.name,
    alert_start_date := a.alert_start_date, alert_type := a.alert_type,
    severity := a.severity, notify_on := a.notify_on,
    status := "pending", is_deleted := false }

/-- Modelled from the spec: AlertService.createAlert lives in
alerts.services.js, which is not among the provided source files (only
its callers are).  Per spec section 4.2 it persists a new Alert with
status "pending" as its only effect on the store. -/
def createAlert (db : DB) (a : AlertSpec) : DB :=
  { db with alerts := db.alerts ++ [specToAlert a] }

/-- A for-of loop over a list of alert objects, calling createAlert on
each. -/
def createAlerts (db : DB) (specs : List AlertSpec) : DB :=
  specs.foldl createAlert db

/-- Errors raised (as ValidationError) by the breeding record operations. -/
inductive BreedingError where
  | missingFields
  | sowNotFound
  | boarNotFound
  | sowServedTooSoon
  | recordNotFound
  deriving Repr, DecidableEq

/-- The request body of createBreedingRecord.  Dates present in the
request are valid calendar days (the invalid date format branches guard
against unparsable strings, which the Int model cannot produce). -/
structure BreedingInput where
  farm_id : String
  sow_id : String
  boar_id : String
  mating_date : Option Int
  expected_birth_date : Option Int
  notes : Option String
  immediate_notify_date : Option Int
  deriving Repr, DecidableEq

/-- The loop variable values of Array.from with length 5 used for the
birth check alerts (i = 0 .. 4), as calendar day offsets. -/
def birthCheckOffsets : List Int := [0, 1, 2, 3, 4]

/-- The write phase of createBreedingRecord, entered once every
validation has passed: insert the record with alert_date = mating + 21,
then persist the immediate breeding success alert, the nesting box
alert at mating + 110 and the five birth check alerts at mating + 110
.. mating + 114, each notifying the day before and the day of its own
start date. -/
def createBreedingWrites (db : DB) (b : BreedingInput) (userId : String) :
    DB × BreedingRecord :=
  let m := b.mating_date.getD 0
  let notifyOnDate := b.immediate_notify_date.getD m
  let newRecord : BreedingRecord :=
    { id := freshId db.nextId, farm_id := b.farm_id, sow_id := b.sow_id,
      boar_id := b.boar_id, mating_date := m,
      expected_birth_date := b.expected_birth_date.getD 0,
      actual_birth_date := none, number_of_piglets := none, notes := b.notes,
      alert_date := m + 21, is_deleted := false }
  let db1 : DB :=
    { db with breeding_records := db.breeding_records ++ [newRecord],
              nextId := db.nextId + 1 }
  let pen := penOf db1 b.sow_id b.farm_id
  let db2 := createAlert db1
    { farm_id := b.farm_id, user_id := userId, pig_id := b.sow_id,
      pen_id := pen, name := .breedingSuccess b.sow_id b.boar_id,
      alert_start_date := m, alert_type := "breeding", severity := "medium",
      notify_on := [notifyOnDate] }
  let scheduled : List AlertSpec :=
    { farm_id := b.farm_id, user_id := userId, pig_id := b.sow_id,
      pen_id := pen, name := .addNestingBox b.sow_id,
      alert_start_date := m + 110, alert_type := "breeding",
      severity := "high", notify_on := [m + 109, m + 110] } ::
    birthCheckOffsets.map (fun i =>
      { farm_id := b.farm_id, user_id := userId, pig_id := b.sow_id,
        pen_id := pen, name := .checkBirth b.sow_id,
        alert_start_date := m + 110 + i, alert_type := "birth",
        severity := "high", notify_on := [m + 109 + i, m + 110 + i] })
  (createAlerts db2 scheduled, newRecord)

/-- BreedingService.createBreedingRecord: required field check, sow and
boar lookup, the post weaning rest guard, then the write phase. -/
def createBreedingRecord (db : DB) (b : BreedingInput) (userId : String) :
    Except BreedingError (DB × BreedingRecord) :=
  if b.farm_id == "" || b.sow_id == "" || b.boar_id == "" ||
      b.mating_date.isNone || b.expected_birth_date.isNone then
    .error .missingFields
  else if !pigExists db b.sow_id b.farm_id "female" then
    .error .sowNotFound
  else if !pigExists db b.boar_id b.farm_id "male" then
    .error .boarNotFound
  else if tooSoonAfterWeaning db b.sow_id b.farm_id (b.mating_date.getD 0) then
    .error .sowServedTooSoon
  else
    .ok (createBreedingWrites db b userId)

/-- The open (actual_birth_date NULL), non deleted breeding records of a
sow on a farm: the subject of the one-open-record invariant. -/
def openRecords (db : DB) (sow farm : String) : List BreedingRecord :=
  db.breeding_records.filter fun r =>
    r.sow_id == sow && r.farm_id == farm && r.actual_birth_date.isNone && !r.is_deleted

/-! ## updateBreedingRecord -/

/-- The request body of updateBreedingRecord (the fields it reads). -/
structure UpdateInput where
  actual_birth_date : Option Int
  number_of_piglets : Option Nat
  notes : Option String
  deriving Repr, DecidableEq

/-- JS truthiness of the number_of_piglets input: undefined and the
number 0 are both falsy. -/
def truthyCount : Option Nat → Bool
  | some n => n != 0
  | none => false

/-- x or-else y for the optional birth date (undefined and the empty
string are the falsy inputs, both folded into none). -/
def orElseDate (x y : Option Int) : Option Int := if x.isSome then x else y

/-- number_of_piglets or-else the stored value: an input of 0 is falsy
in JS and therefore falls back to the stored value. -/
def orElseCount (x y : Option Nat) : Option Nat := if truthyCount x then x else y

/-- notes or-else the stored value. -/
def orElseNotes (x y : Option String) : Option String := if x.isSome then x else y

/-- Insert a record into a list kept in descending actual_birth_date
order (the model of ORDER BY actual_birth_date DESC; the order among
equal dates is unspecified in SQL, the model keeps insertion order). -/
def insertByBirthDesc (r : BreedingRecord) : List BreedingRecord → List BreedingRecord
  | [] => [r]
  | x :: xs =>
    if x.actual_birth_date.getD 0 < r.actual_birth_date.getD 0 then r :: x :: xs
    else x :: insertByBirthDesc r xs

/-- Insertion sort by actual_birth_date, descending. -/
def sortByBirthDesc : List BreedingRecord → List BreedingRecord
  | [] => []
  | r :: rs => insertByBirthDesc r (sortByBirthDesc rs)

/-- SELECT number_of_piglets FROM breeding_records WHERE sow_id AND
farm_id AND actual_birth_date IS NOT NULL AND is_deleted = 0 ORDER BY
actual_birth_date DESC LIMIT 3, then
rows.map(r => r.number_of_piglets or 0).filter(n => n > 0). -/
def littersOf (db : DB) (sow farm : String) : List Nat :=
  (((sortByBirthDesc (resolvedRecords db sow farm)).take 3).map
    (fun r => r.number_of_piglets.getD 0)).filter (fun n => n != 0)

/-- Culling rule A: at least 3 positive historical litter sizes, all
strictly below 5. -/
def ruleA (litters : List Nat) : Bool :=
  (3 ≤ litters.length : Bool) && litters.all (fun n => n < 5)

/-- Culling rule B: the current litter size is below 5 or above 10. -/
def ruleB (n : Nat) : Bool := n < 5 || 10 < n

/-- The culling decision of updateBreedingRecord, an if / else if: at
most one notification row (INSERT INTO notifications, type
culling_alert, title Sow Culling Alert, priority high, data carrying
sow_id and farm_id) is inserted per call; rule A takes precedence and
rule B is only evaluated when rule A does not fire. -/
def cullingInserts (litters : List Nat) (n : Nat) (userId sow farm : String) :
    List Notification :=
  if ruleA litters then
    [{ user_id := userId, ntype := "culling_alert",
       title := "Sow Culling Alert", reason := .lowLitterThreeGen,
       sow_id := sow, farm_id := farm, priority := "high",
       is_deleted := false }]
  else if ruleB n then
    [{ user_id := userId, ntype := "culling_alert",
       title := "Sow Culling Alert", reason := .litterSizeOutOfRange n,
       sow_id := sow, farm_id := farm, priority := "high",
       is_deleted := false }]
  else []

/-- The UPDATE alerts SET status = completed rewrite applied to one row:
matches pending breeding type alerts of the sow (no farm filter in the
SQL; pig_id is globally unique). -/
def completeBreeding (sow : String) (a : Alert) : Alert :=
  if a.pig_id == sow && a.alert_type == "breeding" && a.status == "pending" &&
      !a.is_deleted then
    { a with status := "completed" }
  else a

/-- The first half of the birth cascade: the culling if / else if, the
pigs row update and the completion of pending breeding alerts.  The pen
for the post birth alerts is looked up against this store. -/
def cascadeMid (db : DB) (br : BreedingRecord) (farmId : String)
    (birthDate : Int) (count : Nat) (userId : String) : DB :=
  let litters := littersOf db br.sow_id farmId
  let dbA : DB :=
    { db with notifications := db.notifications ++
        cullingInserts litters count userId br.sow_id farmId }
  let dbB : DB :=
    { dbA with pigs := dbA.pigs.map fun p =>
        if p.pig_id == br.sow_id && p.farm_id == farmId && !p.is_deleted then
          { p with is_pregnant := false, pregnancy_start_date := none,
                   expected_birth_date := none,
                   actual_birth_date := some birthDate }
        else p }
  { dbB with alerts := dbB.alerts.map (completeBreeding br.sow_id) }

/-- The cascade updateBreedingRecord runs when actual_birth_date and
number_of_piglets are both truthy: the culling if / else if, the pigs
row update, completion of pending breeding alerts, then the three post
birth alerts at birth + 4, + 20 and + 42. -/
def birthCascade (db : DB) (br : BreedingRecord) (farmId : String)
    (birthDate : Int) (count : Nat) (userId : String) : DB :=
  let dbC := cascadeMid db br farmId birthDate count userId
  let pen := penOf dbC br.sow_id farmId
  let dbD := createAlert dbC
    { farm_id := farmId, user_id := userId, pig_id := br.sow_id, pen_id := pen,
      name := .fosteringCheck br.sow_id, alert_start_date := birthDate + 4,
      alert_type := "birth", severity := "medium",
      notify_on := [birthDate + 3, birthDate + 4] }
  let dbE := createAlert dbD
    { farm_id := farmId, user_id := userId, pig_id := br.sow_id, pen_id := pen,
      name := .removeNestingBox br.sow_id, alert_start_date := birthDate + 20,
      alert_type := "birth", severity := "medium",
      notify_on := [birthDate + 19, birthDate + 20] }
  createAlert dbE
    { farm_id := farmId, user_id := userId, pig_id := br.sow_id, pen_id := pen,
      name := .weanPiglets br.sow_id, alert_start_date := birthDate + 42,
      alert_type := "birth", severity := "high",
      notify_on := [birthDate + 41, birthDate + 42] }

/-- The body of updateBreedingRecord once the record snapshot br has
been read: the optional birth cascade, then the unconditional UPDATE of
the breeding_records row with or-else fallbacks to the snapshot, whose
RETURNING row is the result. -/
def updateBreedingApply (db : DB) (br : BreedingRecord) (recordId farmId : String)
    (u : UpdateInput) (userId : String) : DB × BreedingRecord :=
  let db1 :=
    if u.actual_birth_date.isSome && truthyCount u.number_of_piglets then
      birthCascade db br farmId (u.actual_birth_date.getD 0)
        (u.number_of_piglets.getD 0) userId
    else db
  let newBr : BreedingRecord :=
    { br with
      actual_birth_date := orElseDate u.actual_birth_date br.actual_birth_date,
      number_of_piglets := orElseCount u.number_of_piglets br.number_of_piglets,
      notes := orElseNotes u.notes br.notes }
  ({ db1 with breeding_records := db1.breeding_records.map fun r =>
      if r.id == recordId && r.farm_id == farmId && !r.is_deleted then
        { r with actual_birth_date := newBr.actual_birth_date,
                 number_of_piglets := newBr.number_of_piglets,
                 notes := newBr.notes }
      else r },
   newBr)

/-- BreedingService.updateBreedingRecord. -/
def updateBreedingRecord (db : DB) (recordId farmId : String) (u : UpdateInput)
    (userId : String) : Except BreedingError (DB × BreedingRecord) :=
  match db.breeding_records.find? (fun r =>
      r.id == recordId && r.farm_id == farmId && !r.is_deleted) with
  | none => .error .recordNotFound
  | some br => .ok (updateBreedingApply db br recordId farmId u userId)

/-! ## deleteBreedingRecord -/

/-- The UPDATE alerts SET status = rejected rewrite applied to one row:
matches pending breeding or birth type alerts of the sow. -/
def rejectPendingBB (sow : String) (a : Alert) : Alert :=
  if a.pig_id == sow &&
      (a.alert_type == "breeding" || a.alert_type == "birth") &&
      a.status == "pending" && !a.is_deleted then
    { a with status := "rejected" }
  else a

/-- The body of deleteBreedingRecord once the snapshot br has been read:
soft delete of the record, cascade to piglet records, and, only when the
record is unresolved, the pig flag reset and the alert rejection. -/
def deleteBreedingApply (db : DB) (br : BreedingRecord)
    (recordId farmId : String) : DB :=
  let db1 : DB :=
    { db with breeding_records := db.breeding_records.map fun r =>
        if r.id == recordId && r.farm_id == farmId && !r.is_deleted then
          { r with is_deleted := true }
        else r }
  let db2 : DB :=
    { db1 with piglet_records := db1.piglet_records.map fun k =>
        if k.breeding_record_id == recordId && !k.is_deleted then
          { k with is_deleted := true }
        else k }
  if br.actual_birth_date.isNone then
    let db3 : DB :=
      { db2 with pigs := db2.pigs.map fun p =>
          if p.pig_id == br.sow_id && p.farm_id == farmId && !p.is_deleted then
            { p with is_pregnant := false, pregnancy_start_date := none,
                     expected_birth_date := none }
          else p }
    { db3 with alerts := db3.alerts.map (rejectPendingBB br.sow_id) }
  else db2

/-- BreedingService.deleteBreedingRecord. -/
def deleteBreedingRecord (db : DB) (recordId farmId userId : String) :
    Except BreedingError (DB × String) :=
  match db.breeding_records.find? (fun r =>
      r.id == recordId && r.farm_id == farmId && !r.is_deleted) with
  | none => .error .recordNotFound
  | some br => .ok (deleteBreedingApply db br recordId farmId, recordId)

/-! ## createPigletRecord -/

/-- One element of the pigletz request array.  Absent and empty string
inputs are both falsy in JS and folded into none. -/
structure PigletInput where
  breeding_record_id : Option String
  piglet_number : Option String
  birth_weight : Option Int
  gender : Option String
  color : Option String
  status : Option String
  parent_male_id : Option String
  parent_female_id : Option String
  notes : Option String
  actual_birth_date : Option Int
  deriving Repr, DecidableEq

/-- The ValidationError raised (and then caught) by createPigletRecord,
identified by its throw site. -/
inductive PigletError where
  | farmNotFound
  | emptyBatch
  | missingRecordId
  | missingNumber
  | recordsNotFound
  | litterSizeExceeded (recordId : String)
  | noValidNumber
  | duplicateNumbers (nums : List String)
  | invalidParentIds (ids : List String)
  | parentFemaleNotSow (id : String)
  | loopRecordMissing (recordId : String)
  | sowMismatch (recordId : String) (femaleId : Option String)
  deriving Repr, DecidableEq

/-- The value returned by createPigletRecord: success with the inserted
(id, piglet_number) pairs, or the caught error as a structured failure. -/
inductive PigletResult where
  | ok (data : List (String × String))
  | failed (e : PigletError)
  deriving Repr, DecidableEq

/-- The success flag of the returned object. -/
def PigletResult.isSuccess : PigletResult → Bool
  | .ok _ => true
  | .failed _ => false

/-- Spread of a JS Set built from a list: the distinct elements in
first occurrence order. -/
def dedupAux (seen : List String) : List String → List String
  | [] => []
  | x :: xs =>
    if seen.contains x then dedupAux seen xs else x :: dedupAux (x :: seen) xs

/-- Spread of a JS Set built from a list. -/
def dedup (l : List String) : List String := dedupAux [] l

/-- SELECT id, sow_id, number_of_piglets FROM breeding_records WHERE
id = ANY AND farm_id AND is_deleted = 0 (the model keeps whole rows). -/
def foundBreedingRecords (db : DB) (ids : List String) (farm : String) :
    List BreedingRecord :=
  db.breeding_records.filter fun r =>
    ids.contains r.id && r.farm_id == farm && !r.is_deleted

/-- The litter size check loop: the first record (if any) for which the
count of existing piglet rows plus the submitted rows for that record
exceeds number_of_piglets (or 0) plus one. -/
def litterViolation (db : DB) (rows : List BreedingRecord)
    (pigletz : List PigletInput) : Option String :=
  (rows.find? fun r =>
    let currentCount := (db.piglet_records.filter fun k =>
      k.breeding_record_id == r.id && !k.is_deleted).length
    let newForRecord := (pigletz.filter fun p =>
      p.breeding_record_id == some r.id).length
    (r.number_of_piglets.getD 0 + 1 : Nat) < currentCount + newForRecord).map (·.id)

/-- The parent id validation block (runs only when some parent id is
supplied): all supplied parent ids must resolve to non deleted pigs of
the farm, and when the first piglet names a female parent, that pig
must have gender female. -/
def parentCheck (db : DB) (parentIds : List String)
    (pigletz : List PigletInput) (farm : String) : Option PigletError :=
  if parentIds.isEmpty then none
  else
    let found := db.pigs.filter fun p =>
      p.farm_id == farm && parentIds.contains p.pig_id && !p.is_deleted
    let missing := parentIds.filter fun i => !(found.any fun f => f.pig_id == i)
    if !missing.isEmpty then some (.invalidParentIds missing)
    else
      match pigletz.head?.bind (·.parent_female_id) with
      | none => none
      | some s =>
        match found.find? (fun f => f.pig_id == s) with
        | none => some (.parentFemaleNotSow s)
        | some f => if f.gender != "female" then some (.parentFemaleNotSow s) else none

/-- All validation of createPigletRecord that precedes the insert loop;
none of it writes to the store. -/
def pigletPrechecks (db : DB) (pigletz : List PigletInput) (farm : String) :
    Option PigletError :=
  if !(db.farms.contains farm) then some .farmNotFound
  else if pigletz.isEmpty then some .emptyBatch
  else
    match pigletz.find? (fun p =>
        p.breeding_record_id.isNone || p.piglet_number.isNone) with
    | some p =>
      some (if p.breeding_record_id.isNone then .missingRecordId else .missingNumber)
    | none =>
      let ids := dedup (pigletz.filterMap (·.breeding_record_id))
      let rows := foundBreedingRecords db ids farm
      if rows.length != ids.length then some .recordsNotFound
      else
        match litterViolation db rows pigletz with
        | some rid => some (.litterSizeExceeded rid)
        | none =>
          let nums := pigletz.filterMap (·.piglet_number)
          if nums.isEmpty then some .noValidNumber
          else
            let dups := (db.piglet_records.filter fun k =>
              k.farm_id == farm && nums.contains k.piglet_number &&
                !k.is_deleted).map (·.piglet_number)
            if !dups.isEmpty then some (.duplicateNumbers dups)
            else
              parentCheck db
                (dedup (pigletz.flatMap fun p =>
                  [p.parent_male_id, p.parent_female_id].filterMap id))
                pigletz farm

/-- Insert a pig_birth_history row for the breeding record of piglet p,
unless one already exists (the SELECT before the INSERT); the litter
count stored is the number of submitted rows for that record. -/
def ensureBirthHistory (db : DB) (p : PigletInput) (r : BreedingRecord)
    (pigletzAll : List PigletInput) (farm : String) : DB :=
  let rid := p.breeding_record_id.getD ""
  if db.pig_birth_history.any (fun h =>
      h.breeding_record_id == rid && !h.is_deleted) then db
  else
    { db with
      pig_birth_history := db.pig_birth_history ++
        [{ id := freshId db.nextId, farm_id := farm,
           sow_id := p.parent_female_id.getD r.sow_id,
           breeding_record_id := rid, birth_date := p.actual_birth_date,
           number_of_piglets := (pigletzAll.filter fun k =>
             k.breeding_record_id == p.breeding_record_id).length,
           notes := p.notes, is_deleted := false }],
      nextId := db.nextId + 1 }

/-- INSERT INTO piglet_records, RETURNING id, piglet_number.  The
weaning date is birth + 42 when a birth date was supplied. -/
def insertPigletRow (db : DB) (p : PigletInput) (farm : String) :
    DB × (String × String) :=
  let pid := freshId db.nextId
  ({ db with
      piglet_records := db.piglet_records ++
        [{ id := pid, breeding_record_id := p.breeding_record_id.getD "",
           farm_id := farm, piglet_number := p.piglet_number.getD "",
           birth_weight := p.birth_weight, gender := p.gender,
           color := p.color, status := p.status.getD "alive",
           weaning_date := p.actual_birth_date.map (· + 42),
           parent_male_id := p.parent_male_id,
           parent_female_id := p.parent_female_id, notes := p.notes,
           is_deleted := false }],
      nextId := db.nextId + 1 },
   (pid, p.piglet_number.getD ""))

/-- The insert loop of createPigletRecord.  Each iteration looks its
breeding record up in the rows fetched before the loop, enforces the
sow match (the comparison runs even when no female parent was given),
ensures the birth history row and inserts the piglet row.  A throw
leaves the rows already inserted in place: the state reached so far is
returned together with the error. -/
def pigletInsertLoop (rows : List BreedingRecord) (farm : String)
    (pigletzAll : List PigletInput) :
    DB → List PigletInput → DB × Except PigletError (List (String × String))
  | db, [] => (db, .ok [])
  | db, p :: rest =>
    match rows.find? (fun r => some r.id == p.breeding_record_id) with
    | none => (db, .error (.loopRecordMissing (p.breeding_record_id.getD "")))
    | some r =>
      if p.parent_female_id != some r.sow_id then
        (db, .error (.sowMismatch (p.breeding_record_id.getD "") p.parent_female_id))
      else
        let st := insertPigletRow (ensureBirthHistory db p r pigletzAll farm) p farm
        match pigletInsertLoop rows farm pigletzAll st.1 rest with
        | (db3, .ok list) => (db3, .ok (st.2 :: list))
        | (db3, .error e) => (db3, .error e)

/-- BreedingService.createPigletRecord.  The try block throws
ValidationError on any violated precondition; the catch turns it into a
structured failure but performs no rollback, so the store returned
alongside a failure keeps every write that preceded the throw.  The
clock parameter now stands for the current dayjs instant, used only
when the first piglet carries no actual_birth_date (dayjs of undefined
is the current time). -/
def createPigletRecord (db : DB) (pigletz : List PigletInput)
    (farm_id userId : String) (now : Int) : DB × PigletResult :=
  match pigletPrechecks db pigletz farm_id with
  | some e => (db, .failed e)
  | none =>
    let ids := dedup (pigletz.filterMap (·.breeding_record_id))
    let rows := foundBreedingRecords db ids farm_id
    match pigletInsertLoop rows farm_id pigletz db pigletz with
    | (db2, .error e) => (db2, .failed e)
    | (db2, .ok inserted) =>
      let base := (pigletz.head?.bind (·.actual_birth_date)).getD now
      let weaning := base + 42
      let femaleId := (pigletz.head?.bind (·.parent_female_id)).getD ""
      let pen := penOf db2 femaleId farm_id
      let db3 := createAlert db2
        { farm_id := farm_id, user_id := userId, pig_id := femaleId,
          pen_id := pen, name := .relocatePiglets femaleId,
          alert_start_date := weaning, alert_type := "birth",
          severity := "medium", notify_on := [weaning - 1, weaning] }
      (db3, .ok inserted)

/-! ## Helper lemmas -/

theorem createAlerts_eq (specs : List AlertSpec) :
    ∀ db : DB, createAlerts db specs =
      { db with alerts := db.alerts ++ specs.map specToAlert } := by
  induction specs with
  | nil => intro db; simp [createAlerts]
  | cons a s ih =>
    intro db
    rw [show createAlerts db (a :: s) = createAlerts (createAlert db a) s from rfl, ih]
    simp [createAlert]

theorem drop_len_append {α : Type} (l₁ l₂ : List α) :
    (l₁ ++ l₂).drop l₁.length = l₂ := by
  induction l₁ with
  | nil => rfl
  | cons x xs ih => simp [ih]

/-! ## Concrete stores used by witnesses and counterexamples -/

/-- A pig row with the default flags. -/
def mkPig (pid farm g : String) : Pig :=
  { pig_id := pid, farm_id := farm, gender := g, pen_id := some "P1",
    is_pregnant := false, pregnancy_start_date := none,
    expected_birth_date := none, actual_birth_date := none,
    is_deleted := false }

/-- A breeding record of sow S1 and boar B1 on farm F1. -/
def mkRec (rid : String) (abd : Option Int) (n : Option Nat) : BreedingRecord :=
  { id := rid, farm_id := "F1", sow_id := "S1", boar_id := "B1",
    mating_date := 0, expected_birth_date := 114, actual_birth_date := abd,
    number_of_piglets := n, notes := none, alert_date := 21,
    is_deleted := false }

/-- An alert row for pig S1 on farm F1. -/
def mkAlert (ty st : String) : Alert :=
  { farm_id := "F1", user_id := "u1", pig_id := "S1", pen_id := some "P1",
    name := .checkBirth "S1", alert_start_date := 110, alert_type := ty,
    severity := "high", notify_on := [109, 110], status := st,
    is_deleted := false }

/-- The base store: farm F1 with sow S1 and boar B1 and nothing else. -/
def baseDB : DB :=
  { pigs := [mkPig "S1" "F1" "female", mkPig "B1" "F1" "male"],
    farms := ["F1"], breeding_records := [], alerts := [],
    notifications := [], piglet_records := [], pig_birth_history := [],
    nextId := 0 }

/-- A mating request for S1 and B1 on F1. -/
def mkInput (m : Int) : BreedingInput :=
  { farm_id := "F1", sow_id := "S1", boar_id := "B1", mating_date := some m,
    expected_birth_date := some (m + 114), notes := none,
    immediate_notify_date := none }

/-- The base store with one open breeding record R0 for sow S1. -/
def openDB : DB := { baseDB with breeding_records := [mkRec "R0" none none] }

/-- The base store with one resolved record for S1, born on day 0. -/
def restDB : DB :=
  { baseDB with breeding_records := [mkRec "R0" (some 0) (some 6)] }

/-! ## C1 -/

/-- C1: every successful createBreedingRecord call with mating date m
persists exactly 7 alerts, in order one breeding success confirmation
starting at m, one nesting box alert starting at m + 110 and five birth
check alerts starting at m + 110 .. m + 114, all pending, and the
created record carries alert_date = m + 21. -/
theorem mating_persists_seven_alerts (db : DB) (b : BreedingInput) (u : String)
    (out : DB × BreedingRecord)
    (h : createBreedingRecord db b u = .ok out) :
    ∃ m : Int, b.mating_date = some m ∧
      out.2.alert_date = m + 21 ∧
      out.1.breeding_records = db.breeding_records ++ [out.2] ∧
      out.1.alerts.length = db.alerts.length + 7 ∧
      (out.1.alerts.drop db.alerts.length).map
          (fun a => (a.name, a.alert_type, a.alert_start_date, a.status)) =
        [(.breedingSuccess b.sow_id b.boar_id, "breeding", m, "pending"),
         (.addNestingBox b.sow_id, "breeding", m + 110, "pending"),
         (.checkBirth b.sow_id, "birth", m + 110, "pending"),
         (.checkBirth b.sow_id, "birth", m + 111, "pending"),
         (.checkBirth b.sow_id, "birth", m + 112, "pending"),
         (.checkBirth b.sow_id, "birth", m + 113, "pending"),
         (.checkBirth b.sow_id, "birth", m + 114, "pending")] := by
  unfold createBreedingRecord at h
  split at h
  · exact Except.noConfusion h
  rename_i h1
  split at h
  · exact Except.noConfusion h
  split at h
  · exact Except.noConfusion h
  split at h
  · exact Except.noConfusion h
  injection h with h
  subst h
  rcases hmd : b.mating_date with _ | m
  · rw [hmd] at h1; simp at h1
  refine ⟨m, rfl, ?_, ?_, ?_, ?_⟩
  · simp [createBreedingWrites, hmd]
  · simp [createBreedingWrites, createAlerts_eq, createAlert]
  · simp [createBreedingWrites, createAlerts_eq, createAlert, specToAlert,
      birthCheckOffsets]
  · simp [createBreedingWrites, createAlerts_eq, createAlert, specToAlert,
      birthCheckOffsets, drop_len_append, hmd]
    omega

/-- C1 witness: the theorem applied to the base store and a mating on
day 100. -/
theorem mating_persists_seven_alerts_witness :
    ∃ m : Int, (mkInput 100).mating_date = some m ∧
      (createBreedingWrites baseDB (mkInput 100) "u1").2.alert_date = m + 21 ∧
      (createBreedingWrites baseDB (mkInput 100) "u1").1.breeding_records =
        baseDB.breeding_records ++ [(createBreedingWrites baseDB (mkInput 100) "u1").2] ∧
      (createBreedingWrites baseDB (mkInput 100) "u1").1.alerts.length =
        baseDB.alerts.length + 7 ∧
      ((createBreedingWrites baseDB (mkInput 100) "u1").1.alerts.drop
          baseDB.alerts.length).map
          (fun a => (a.name, a.alert_type, a.alert_start_date, a.status)) =
        [(.breedingSuccess (mkInput 100).sow_id (mkInput 100).boar_id, "breeding", m, "pending"),
         (.addNestingBox (mkInput 100).sow_id, "breeding", m + 110, "pending"),
         (.checkBirth (mkInput 100).sow_id, "birth", m + 110, "pending"),
         (.checkBirth (mkInput 100).sow_id, "birth", m + 111, "pending"),
         (.checkBirth (mkInput 100).sow_id, "birth", m + 112, "pending"),
         (.checkBirth (mkInput 100).sow_id, "birth", m + 113, "pending"),
         (.checkBirth (mkInput 100).sow_id, "birth", m + 114, "pending")] :=
  mating_persists_seven_alerts baseDB (mkInput 100) "u1"
    (createBreedingWrites baseDB (mkInput 100) "u1") rfl

/-! ## C4 -/

/-- C4 counterexample: sow S1 already has an open breeding record, yet
a new createBreedingRecord call for S1 succeeds and leaves two open
records, so the claimed rejection does not happen and the one open
record invariant is not preserved. -/
theorem open_record_not_rejected_cex :
    ((createBreedingRecord openDB (mkInput 200) "u1").map
        (fun p => (openRecords p.1 "S1" "F1").length)) = .ok 2 ∧
    (openRecords openDB "S1" "F1").length = 1 := ⟨rfl, rfl⟩

/-- C4 amended: createBreedingRecord checks only field presence, sow
and boar existence and the post weaning rest guard; it never inspects
open records, so whenever those checks pass the call succeeds and the
number of open records of the sow grows by one, regardless of how many
were already open. -/
theorem mating_ignores_open_records (db : DB) (b : BreedingInput) (u : String)
    (h1 : (b.farm_id == "" || b.sow_id == "" || b.boar_id == "" ||
           b.mating_date.isNone || b.expected_birth_date.isNone) = false)
    (h2 : pigExists db b.sow_id b.farm_id "female" = true)
    (h3 : pigExists db b.boar_id b.farm_id "male" = true)
    (h4 : tooSoonAfterWeaning db b.sow_id b.farm_id (b.mating_date.getD 0) = false) :
    createBreedingRecord db b u = .ok (createBreedingWrites db b u) ∧
    (openRecords (createBreedingWrites db b u).1 b.sow_id b.farm_id).length =
      (openRecords db b.sow_id b.farm_id).length + 1 := by
  constructor
  · simp [createBreedingRecord, h1, h2, h3, h4]
  · simp [openRecords, createBreedingWrites, createAlerts_eq, createAlert,
      List.filter_append]

/-- C4 amended witness: the amended theorem applied to the store that
already holds an open record for S1. -/
theorem mating_ignores_open_records_witness :
    createBreedingRecord openDB (mkInput 200) "u1" =
      .ok (createBreedingWrites openDB (mkInput 200) "u1") ∧
    (openRecords (createBreedingWrites openDB (mkInput 200) "u1").1 "S1" "F1").length =
      (openRecords openDB "S1" "F1").length + 1 :=
  mating_ignores_open_records openDB (mkInput 200) "u1" rfl rfl rfl rfl

/-! ## C5 -/

/-- C5: when the most recent resolved record of the sow has actual
birth date D, createBreedingRecord with mating date D + 48 fails with
the served-too-soon ValidationError (48 is inside the 42 + 7 window),
while mating date D + 50 passes the guard and succeeds. -/
theorem rest_period_guard (db : DB) (b : BreedingInput) (u : String) (D : Int)
    (hf : (b.farm_id == "") = false) (hs : (b.sow_id == "") = false)
    (hb : (b.boar_id == "") = false)
    (he : b.expected_birth_date.isNone = false)
    (h2 : pigExists db b.sow_id b.farm_id "female" = true)
    (h3 : pigExists db b.boar_id b.farm_id "male" = true)
    (h4 : lastResolvedBirth db b.sow_id b.farm_id = some D) :
    createBreedingRecord db { b with mating_date := some (D + 48) } u =
      .error .sowServedTooSoon ∧
    createBreedingRecord db { b with mating_date := some (D + 50) } u =
      .ok (createBreedingWrites db { b with mating_date := some (D + 50) } u) := by
  constructor
  · have hg : tooSoonAfterWeaning db b.sow_id b.farm_id (D + 48) = true := by
      simp [tooSoonAfterWeaning, h4]; omega
    simp [createBreedingRecord, hf, hs, hb, he, h2, h3, hg]
  · have hg : tooSoonAfterWeaning db b.sow_id b.farm_id (D + 50) = false := by
      simp [tooSoonAfterWeaning, h4]; omega
    simp [createBreedingRecord, hf, hs, hb, he, h2, h3, hg]

/-- C5 witness: the theorem applied to a store whose sow S1 delivered
on day 0, so matings on day 48 and day 50 exercise both sides of the
guard. -/
theorem rest_period_guard_witness :
    createBreedingRecord restDB { mkInput 0 with mating_date := some (0 + 48) } "u1" =
      .error .sowServedTooSoon ∧
    createBreedingRecord restDB { mkInput 0 with mating_date := some (0 + 50) } "u1" =
      .ok (createBreedingWrites restDB
        { mkInput 0 with mating_date := some (0 + 50) } "u1") :=
  rest_period_guard restDB (mkInput 0) "u1" 0 rfl rfl rfl rfl rfl rfl rfl

/-! ## C2 -/

/-- The base store with an open record R1 for S1 and one pending birth
alert plus one pending breeding alert for S1. -/
def pendDB : DB :=
  { baseDB with
    breeding_records := [mkRec "R1" none none],
    alerts := [mkAlert "birth" "pending", mkAlert "breeding" "pending"] }

/-- A birth outcome of 6 piglets on day 112. -/
def upd6 : UpdateInput :=
  { actual_birth_date := some 112, number_of_piglets := some 6, notes := none }

/-- C2 counterexample: sow S1 has a pending alert of type birth and a
pending alert of type breeding; recording the birth outcome succeeds
but only the breeding alert becomes completed — the pending birth
alert of the same sow stays pending, contradicting the claim that both
types transition to completed. -/
theorem birth_alert_not_completed_cex :
    (pendDB.alerts.map (fun a => (a.pig_id, a.alert_type, a.status))) =
      [("S1", "birth", "pending"), ("S1", "breeding", "pending")] ∧
    ((updateBreedingRecord pendDB "R1" "F1" upd6 "u1").map
      (fun p => (p.1.alerts.take 2).map (fun a => (a.alert_type, a.status)))) =
      .ok [("birth", "pending"), ("breeding", "completed")] := ⟨rfl, rfl⟩

/-- C2 amended: when the birth outcome cascade runs, the pre existing
alerts are rewritten exactly by the completeBreeding rule — pending
breeding type alerts of the sow become completed, every other alert
(including pending birth type alerts of the sow and all alerts of other
pigs) keeps its status — and exactly three new pending post birth
alerts for the sow are appended. -/
theorem birth_outcome_completes_breeding_alerts (db : DB) (rid fid : String)
    (u : UpdateInput) (uid : String) (br : BreedingRecord) (out : DB × BreedingRecord)
    (hbr : db.breeding_records.find? (fun r =>
        r.id == rid && r.farm_id == fid && !r.is_deleted) = some br)
    (hd : u.actual_birth_date.isSome = true)
    (hn : truthyCount u.number_of_piglets = true)
    (h : updateBreedingRecord db rid fid u uid = .ok out) :
    ∃ post : List Alert,
      out.1.alerts = db.alerts.map (completeBreeding br.sow_id) ++ post ∧
      post.map (fun a => (a.pig_id, a.name, a.alert_type, a.alert_start_date, a.status)) =
        [(br.sow_id, .fosteringCheck br.sow_id, "birth",
            u.actual_birth_date.getD 0 + 4, "pending"),
         (br.sow_id, .removeNestingBox br.sow_id, "birth",
            u.actual_birth_date.getD 0 + 20, "pending"),
         (br.sow_id, .weanPiglets br.sow_id, "birth",
            u.actual_birth_date.getD 0 + 42, "pending")] := by
  unfold updateBreedingRecord at h
  rw [hbr] at h
  injection h with h
  subst h
  refine ⟨[⟨fid, uid, br.sow_id,
      penOf (cascadeMid db br fid (u.actual_birth_date.getD 0)
        (u.number_of_piglets.getD 0) uid) br.sow_id fid,
      .fosteringCheck br.sow_id, u.actual_birth_date.getD 0 + 4, "birth", "medium",
      [u.actual_birth_date.getD 0 + 3, u.actual_birth_date.getD 0 + 4], "pending", false⟩,
    ⟨fid, uid, br.sow_id,
      penOf (cascadeMid db br fid (u.actual_birth_date.getD 0)
        (u.number_of_piglets.getD 0) uid) br.sow_id fid,
      .removeNestingBox br.sow_id, u.actual_birth_date.getD 0 + 20, "birth", "medium",
      [u.actual_birth_date.getD 0 + 19, u.actual_birth_date.getD 0 + 20], "pending", false⟩,
    ⟨fid, uid, br.sow_id,
      penOf (cascadeMid db br fid (u.actual_birth_date.getD 0)
        (u.number_of_piglets.getD 0) uid) br.sow_id fid,
      .weanPiglets br.sow_id, u.actual_birth_date.getD 0 + 42, "birth", "high",
      [u.actual_birth_date.getD 0 + 41, u.actual_birth_date.getD 0 + 42], "pending", false⟩],
    ?_, ?_⟩
  · show (updateBreedingApply db br rid fid u uid).1.alerts = _
    simp [updateBreedingApply, hd, hn, birthCascade, createAlert, specToAlert]
    simp [cascadeMid]
  · simp

/-- C2 amended witness: the amended theorem applied to the store with
the two pending alerts. -/
theorem birth_outcome_completes_breeding_alerts_witness :
    ∃ post : List Alert,
      (updateBreedingApply pendDB (mkRec "R1" none none) "R1" "F1" upd6 "u1").1.alerts =
        pendDB.alerts.map (completeBreeding (mkRec "R1" none none).sow_id) ++ post ∧
      post.map (fun a => (a.pig_id, a.name, a.alert_type, a.alert_start_date, a.status)) =
        [((mkRec "R1" none none).sow_id,
            .fosteringCheck (mkRec "R1" none none).sow_id, "birth",
            upd6.actual_birth_date.getD 0 + 4, "pending"),
         ((mkRec "R1" none none).sow_id,
            .removeNestingBox (mkRec "R1" none none).sow_id, "birth",
            upd6.actual_birth_date.getD 0 + 20, "pending"),
         ((mkRec "R1" none none).sow_id,
            .weanPiglets (mkRec "R1" none none).sow_id, "birth",
            upd6.actual_birth_date.getD 0 + 42, "pending")] :=
  birth_outcome_completes_breeding_alerts pendDB "R1" "F1" upd6 "u1"
    (mkRec "R1" none none)
    (updateBreedingApply pendDB (mkRec "R1" none none) "R1" "F1" upd6 "u1")
    rfl rfl rfl rfl

/-! ## C3 -/

/-- A store whose sow S1 has three resolved litters of sizes 4, 4, 3
and one open record R4. -/
def cullDB : DB :=
  { baseDB with breeding_records :=
      [mkRec "R1" (some 10) (some 4), mkRec "R2" (some 60) (some 4),
       mkRec "R3" (some 120) (some 3), mkRec "R4" none none] }

/-- A birth outcome of 12 piglets on day 200. -/
def upd12 : UpdateInput :=
  { actual_birth_date := some 200, number_of_piglets := some 12, notes := none }

/-- C3 counterexample: the sow has three historical litters all below 5
(rule A holds) and the current litter of 12 is above 10 (rule B holds),
yet the call persists exactly one culling notification — rule A's — and
not one per rule, because the code evaluates the rules as if / else if. -/
theorem culling_both_rules_one_notification_cex :
    ruleA (littersOf cullDB "S1" "F1") = true ∧ ruleB 12 = true ∧
    ((updateBreedingRecord cullDB "R4" "F1" upd12 "u1").map
      (fun p => p.1.notifications.map (fun nt => nt.reason))) =
      .ok [.lowLitterThreeGen] := ⟨rfl, rfl, rfl⟩

/-- C3 amended: the two culling rules are evaluated sequentially with
rule A taking precedence, so a birth outcome call persists at most one
culling notification: rule A's when its condition holds, rule B's only
when rule A's condition does not hold, and none otherwise. -/
theorem culling_rules_precedence (db : DB) (rid fid : String)
    (u : UpdateInput) (uid : String) (br : BreedingRecord) (out : DB × BreedingRecord)
    (hbr : db.breeding_records.find? (fun r =>
        r.id == rid && r.farm_id == fid && !r.is_deleted) = some br)
    (hd : u.actual_birth_date.isSome = true)
    (hn : truthyCount u.number_of_piglets = true)
    (h : updateBreedingRecord db rid fid u uid = .ok out) :
    out.1.notifications.length ≤ db.notifications.length + 1 ∧
    (ruleA (littersOf db br.sow_id fid) = true →
      out.1.notifications = db.notifications ++
        [⟨uid, "culling_alert", "Sow Culling Alert", .lowLitterThreeGen,
          br.sow_id, fid, "high", false⟩]) ∧
    (ruleA (littersOf db br.sow_id fid) = false →
      ruleB (u.number_of_piglets.getD 0) = true →
      out.1.notifications = db.notifications ++
        [⟨uid, "culling_alert", "Sow Culling Alert",
          .litterSizeOutOfRange (u.number_of_piglets.getD 0),
          br.sow_id, fid, "high", false⟩]) ∧
    (ruleA (littersOf db br.sow_id fid) = false →
      ruleB (u.number_of_piglets.getD 0) = false →
      out.1.notifications = db.notifications) := by
  unfold updateBreedingRecord at h
  rw [hbr] at h
  injection h with h
  subst h
  have hnot : (updateBreedingApply db br rid fid u uid).1.notifications =
      db.notifications ++ cullingInserts (littersOf db br.sow_id fid)
        (u.number_of_piglets.getD 0) uid br.sow_id fid := by
    simp [updateBreedingApply, hd, hn, birthCascade, cascadeMid, createAlert]
  refine ⟨?_, ?_, ?_, ?_⟩
  · rw [hnot]; unfold cullingInserts; split
    · simp
    · split <;> simp
  · intro hA; rw [hnot]; simp [cullingInserts, hA]
  · intro hA hB; rw [hnot]; simp [cullingInserts, hA, hB]
  · intro hA hB; rw [hnot]; simp [cullingInserts, hA, hB]

/-- C3 amended witness: the amended theorem applied to the store with
history 4, 4, 3 and a current litter of 12. -/
theorem culling_rules_precedence_witness :
    (updateBreedingApply cullDB (mkRec "R4" none none) "R4" "F1" upd12 "u1").1.notifications.length ≤
      cullDB.notifications.length + 1 ∧
    (ruleA (littersOf cullDB (mkRec "R4" none none).sow_id "F1") = true →
      (updateBreedingApply cullDB (mkRec "R4" none none) "R4" "F1" upd12 "u1").1.notifications =
        cullDB.notifications ++
          [⟨"u1", "culling_alert", "Sow Culling Alert", .lowLitterThreeGen,
            (mkRec "R4" none none).sow_id, "F1", "high", false⟩]) ∧
    (ruleA (littersOf cullDB (mkRec "R4" none none).sow_id "F1") = false →
      ruleB (upd12.number_of_piglets.getD 0) = true →
      (updateBreedingApply cullDB (mkRec "R4" none none) "R4" "F1" upd12 "u1").1.notifications =
        cullDB.notifications ++
          [⟨"u1", "culling_alert", "Sow Culling Alert",
            .litterSizeOutOfRange (upd12.number_of_piglets.getD 0),
            (mkRec "R4" none none).sow_id, "F1", "high", false⟩]) ∧
    (ruleA (littersOf cullDB (mkRec "R4" none none).sow_id "F1") = false →
      ruleB (upd12.number_of_piglets.getD 0) = false →
      (updateBreedingApply cullDB (mkRec "R4" none none) "R4" "F1" upd12 "u1").1.notifications =
        cullDB.notifications) :=
  culling_rules_precedence cullDB "R4" "F1" upd12 "u1" (mkRec "R4" none none)
    (updateBreedingApply cullDB (mkRec "R4" none none) "R4" "F1" upd12 "u1")
    rfl rfl rfl rfl

/-! ## C8 -/

/-- A birth date together with a litter count of 0 (falsy in JS). -/
def upd0 : UpdateInput :=
  { actual_birth_date := some 112, number_of_piglets := some 0, notes := none }

/-- C8: when number_of_piglets is absent or 0 the whole birth cascade
is skipped even though actual_birth_date is supplied: pigs, alerts,
notifications, piglet records and birth history are untouched, only the
breeding_records row is rewritten, and each falsy input field falls
back to the previously stored value. -/
theorem falsy_count_skips_cascade (db : DB) (rid fid : String)
    (u : UpdateInput) (uid : String) (br : BreedingRecord) (out : DB × BreedingRecord)
    (hn : truthyCount u.number_of_piglets = false)
    (hbr : db.breeding_records.find? (fun r =>
        r.id == rid && r.farm_id == fid && !r.is_deleted) = some br)
    (h : updateBreedingRecord db rid fid u uid = .ok out) :
    out.1.alerts = db.alerts ∧
    out.1.notifications = db.notifications ∧
    out.1.pigs = db.pigs ∧
    out.1.piglet_records = db.piglet_records ∧
    out.1.pig_birth_history = db.pig_birth_history ∧
    out.2 = { br with
      actual_birth_date := orElseDate u.actual_birth_date br.actual_birth_date,
      number_of_piglets := orElseCount u.number_of_piglets br.number_of_piglets,
      notes := orElseNotes u.notes br.notes } ∧
    out.1.breeding_records = db.breeding_records.map (fun r =>
      if r.id == rid && r.farm_id == fid && !r.is_deleted then
        { r with
          actual_birth_date := orElseDate u.actual_birth_date br.actual_birth_date,
          number_of_piglets := orElseCount u.number_of_piglets br.number_of_piglets,
          notes := orElseNotes u.notes br.notes }
      else r) := by
  unfold updateBreedingRecord at h
  rw [hbr] at h
  injection h with h
  subst h
  simp [updateBreedingApply, hn]

/-- C8 witness: the theorem applied to the pending store with a birth
date and a litter count of 0. -/
theorem falsy_count_skips_cascade_witness :
    (updateBreedingApply pendDB (mkRec "R1" none none) "R1" "F1" upd0 "u1").1.alerts =
      pendDB.alerts ∧
    (updateBreedingApply pendDB (mkRec "R1" none none) "R1" "F1" upd0 "u1").1.notifications =
      pendDB.notifications ∧
    (updateBreedingApply pendDB (mkRec "R1" none none) "R1" "F1" upd0 "u1").1.pigs =
      pendDB.pigs ∧
    (updateBreedingApply pendDB (mkRec "R1" none none) "R1" "F1" upd0 "u1").1.piglet_records =
      pendDB.piglet_records ∧
    (updateBreedingApply pendDB (mkRec "R1" none none) "R1" "F1" upd0 "u1").1.pig_birth_history =
      pendDB.pig_birth_history ∧
    (updateBreedingApply pendDB (mkRec "R1" none none) "R1" "F1" upd0 "u1").2 =
      { mkRec "R1" none none with
        actual_birth_date :=
          orElseDate upd0.actual_birth_date (mkRec "R1" none none).actual_birth_date,
        number_of_piglets :=
          orElseCount upd0.number_of_piglets (mkRec "R1" none none).number_of_piglets,
        notes := orElseNotes upd0.notes (mkRec "R1" none none).notes } ∧
    (updateBreedingApply pendDB (mkRec "R1" none none) "R1" "F1" upd0 "u1").1.breeding_records =
      pendDB.breeding_records.map (fun r =>
        if r.id == "R1" && r.farm_id == "F1" && !r.is_deleted then
          { r with
            actual_birth_date :=
              orElseDate upd0.actual_birth_date (mkRec "R1" none none).actual_birth_date,
            number_of_piglets :=
              orElseCount upd0.number_of_piglets (mkRec "R1" none none).number_of_piglets,
            notes := orElseNotes upd0.notes (mkRec "R1" none none).notes }
        else r) :=
  falsy_count_skips_cascade pendDB "R1" "F1" upd0 "u1" (mkRec "R1" none none)
    (updateBreedingApply pendDB (mkRec "R1" none none) "R1" "F1" upd0 "u1")
    rfl rfl rfl

/-! ## C7 -/

/-- A store with a resolved record R1 for S1 and one pending breeding
alert for S1. -/
def delDB : DB :=
  { baseDB with breeding_records := [mkRec "R1" (some 50) (some 6)],
                alerts := [mkAlert "breeding" "pending"] }

/-- C7 counterexample: record R1 is already resolved (actual birth date
day 50), yet deleteBreedingRecord succeeds and soft removes it — the
claimed failure does not happen — while the pending alert stays
pending. -/
theorem delete_resolved_record_cex :
    ((deleteBreedingRecord delDB "R1" "F1" "u1").map
      (fun p => (p.2, p.1.breeding_records.map (fun r => r.is_deleted),
                 p.1.alerts.map (fun a => a.status)))) =
      .ok ("R1", [true], ["pending"]) := rfl

/-- C7 amended: deleteBreedingRecord succeeds on any existing non
deleted record, resolved or not; it always soft removes the record and
cascades soft removal to its piglet records; only when the record is
unresolved does it additionally reset the sow pregnancy flags and turn
pending breeding and birth alerts of the sow to rejected, and on a
resolved record pigs and alerts are untouched. -/
theorem delete_breeding_record_behavior (db : DB) (rid fid uid : String)
    (br : BreedingRecord) (out : DB × String)
    (hbr : db.breeding_records.find? (fun r =>
        r.id == rid && r.farm_id == fid && !r.is_deleted) = some br)
    (h : deleteBreedingRecord db rid fid uid = .ok out) :
    out.2 = rid ∧
    out.1.breeding_records = db.breeding_records.map (fun r =>
      if r.id == rid && r.farm_id == fid && !r.is_deleted then
        { r with is_deleted := true } else r) ∧
    out.1.piglet_records = db.piglet_records.map (fun k =>
      if k.breeding_record_id == rid && !k.is_deleted then
        { k with is_deleted := true } else k) ∧
    (br.actual_birth_date = none →
      out.1.alerts = db.alerts.map (rejectPendingBB br.sow_id) ∧
      out.1.pigs = db.pigs.map (fun p =>
        if p.pig_id == br.sow_id && p.farm_id == fid && !p.is_deleted then
          { p with is_pregnant := false, pregnancy_start_date := none,
                   expected_birth_date := none }
        else p)) ∧
    (br.actual_birth_date ≠ none →
      out.1.alerts = db.alerts ∧ out.1.pigs = db.pigs) := by
  unfold deleteBreedingRecord at h
  rw [hbr] at h
  injection h with h
  subst h
  rcases habd : br.actual_birth_date with _ | d
  · refine ⟨rfl, ?_, ?_, ?_, ?_⟩
    · simp [deleteBreedingApply, habd]
    · simp [deleteBreedingApply, habd]
    · intro hc; constructor <;> simp [deleteBreedingApply, habd]
    · intro hc; exact absurd rfl hc
  · refine ⟨rfl, ?_, ?_, ?_, ?_⟩
    · simp [deleteBreedingApply, habd]
    · simp [deleteBreedingApply, habd]
    · intro hc; simp [habd] at hc
    · intro hc; constructor <;> simp [deleteBreedingApply, habd]

/-- C7 amended witness: the amended theorem applied to the store whose
record R1 is already resolved. -/
theorem delete_breeding_record_behavior_witness :
    (deleteBreedingApply delDB (mkRec "R1" (some 50) (some 6)) "R1" "F1", "R1").2 = "R1" ∧
    (deleteBreedingApply delDB (mkRec "R1" (some 50) (some 6)) "R1" "F1", "R1").1.breeding_records =
      delDB.breeding_records.map (fun r =>
        if r.id == "R1" && r.farm_id == "F1" && !r.is_deleted then
          { r with is_deleted := true } else r) ∧
    (deleteBreedingApply delDB (mkRec "R1" (some 50) (some 6)) "R1" "F1", "R1").1.piglet_records =
      delDB.piglet_records.map (fun k =>
        if k.breeding_record_id == "R1" && !k.is_deleted then
          { k with is_deleted := true } else k) ∧
    ((mkRec "R1" (some 50) (some 6)).actual_birth_date = none →
      (deleteBreedingApply delDB (mkRec "R1" (some 50) (some 6)) "R1" "F1", "R1").1.alerts =
        delDB.alerts.map (rejectPendingBB (mkRec "R1" (some 50) (some 6)).sow_id) ∧
      (deleteBreedingApply delDB (mkRec "R1" (some 50) (some 6)) "R1" "F1", "R1").1.pigs =
        delDB.pigs.map (fun p =>
          if p.pig_id == (mkRec "R1" (some 50) (some 6)).sow_id && p.farm_id == "F1" &&
              !p.is_deleted then
            { p with is_pregnant := false, pregnancy_start_date := none,
                     expected_birth_date := none }
          else p)) ∧
    ((mkRec "R1" (some 50) (some 6)).actual_birth_date ≠ none →
      (deleteBreedingApply delDB (mkRec "R1" (some 50) (some 6)) "R1" "F1", "R1").1.alerts =
        delDB.alerts ∧
      (deleteBreedingApply delDB (mkRec "R1" (some 50) (some 6)) "R1" "F1", "R1").1.pigs =
        delDB.pigs) :=
  delete_breeding_record_behavior delDB "R1" "F1" "u1"
    (mkRec "R1" (some 50) (some 6))
    (deleteBreedingApply delDB (mkRec "R1" (some 50) (some 6)) "R1" "F1", "R1")
    rfl rfl

/-! ## C6, C9, C10 -/

/-- Classifies the createPigletRecord errors raised before the insert
loop (true) against the two raised inside it (false). -/
def isPreLoopError : PigletError → Bool
  | .loopRecordMissing _ => false
  | .sowMismatch _ _ => false
  | _ => true

theorem pigletInsertLoop_error_kind (rows : List BreedingRecord) (farm : String)
    (all : List PigletInput) :
    ∀ (l : List PigletInput) (db db2 : DB) (e : PigletError),
      pigletInsertLoop rows farm all db l = (db2, .error e) →
      isPreLoopError e = false := by
  intro l
  induction l with
  | nil => intro db db2 e h; simp [pigletInsertLoop] at h
  | cons q rest ih =>
    intro db db2 e h
    unfold pigletInsertLoop at h
    cases hf : rows.find? (fun r => some r.id == q.breeding_record_id) with
    | none =>
      rw [hf] at h
      simp at h
      rcases h with ⟨-, he⟩
      rw [← he]; rfl
    | some r =>
      rw [hf] at h
      dsimp only at h
      by_cases hq : (q.parent_female_id != some r.sow_id) = true
      · rw [if_pos hq] at h
        simp at h
        rcases h with ⟨-, he⟩
        rw [← he]; rfl
      · rw [if_neg hq] at h
        rcases hrec : pigletInsertLoop rows farm all
            (insertPigletRow (ensureBirthHistory db q r all farm) q farm).1 rest with ⟨db3, res⟩
        rw [hrec] at h
        cases res with
        | ok lst => simp at h
        | error e1 =>
          simp at h
          rcases h with ⟨-, he⟩
          rw [← he]
          exact ih _ _ _ hrec

theorem pigletInsertLoop_no_ok_of_mismatch (rows : List BreedingRecord)
    (farm : String) (all : List PigletInput) (p : PigletInput)
    (hmis : ∀ r ∈ rows, some r.id = p.breeding_record_id →
      p.parent_female_id ≠ some r.sow_id) :
    ∀ (l : List PigletInput) (db : DB), p ∈ l →
      ∀ (db2 : DB) (lst : List (String × String)),
        pigletInsertLoop rows farm all db l = (db2, .ok lst) → False := by
  intro l
  induction l with
  | nil => intro db hp; exact absurd hp (List.not_mem_nil p)
  | cons q rest ih =>
    intro db hp db2 lst h
    unfold pigletInsertLoop at h
    cases hf : rows.find? (fun r => some r.id == q.breeding_record_id) with
    | none => rw [hf] at h; simp at h
    | some r =>
      rw [hf] at h
      dsimp only at h
      by_cases hq : (q.parent_female_id != some r.sow_id) = true
      · rw [if_pos hq] at h; simp at h
      · rw [if_neg hq] at h
        rcases List.mem_cons.mp hp with hpq | hpr
        · subst hpq
          have hrm : r ∈ rows := List.mem_of_find?_eq_some hf
          have hrp := List.find?_some hf
          have hid : some r.id = p.breeding_record_id := by simpa using hrp
          have hok : p.parent_female_id = some r.sow_id := by simpa using hq
          exact hmis r hrm hid (by rw [hok])
        · rcases hrec : pigletInsertLoop rows farm all
              (insertPigletRow (ensureBirthHistory db q r all farm) q farm).1 rest with ⟨db3, res⟩
          rw [hrec] at h
          cases res with
          | ok lst1 => exact ih _ hpr _ _ hrec
          | error e1 => simp at h

/-- The base store with record R1 resolved on day 112 with litter
size 2. -/
def pigDB : DB :=
  { baseDB with breeding_records := [mkRec "R1" (some 112) (some 2)] }

/-- A piglet entry for record R1 born on day 112. -/
def pigIn (num : String) (fem : Option String) : PigletInput :=
  { breeding_record_id := some "R1", piglet_number := some num,
    birth_weight := none, gender := none, color := none, status := none,
    parent_male_id := none, parent_female_id := fem, notes := none,
    actual_birth_date := some 112 }

/-- C6 counterexample: a two entry batch whose second entry violates
the sow match precondition returns a structured failure, yet the piglet
row and the birth history row inserted for the first entry remain
persisted, so the call is not all-or-nothing. -/
theorem piglet_batch_partial_persistence_cex :
    ((createPigletRecord pigDB [pigIn "1" (some "S1"), pigIn "2" none] "F1" "u1" 0).2).isSuccess = false ∧
    (createPigletRecord pigDB [pigIn "1" (some "S1"), pigIn "2" none] "F1" "u1" 0).1.piglet_records.length = 1 ∧
    (createPigletRecord pigDB [pigIn "1" (some "S1"), pigIn "2" none] "F1" "u1" 0).1.pig_birth_history.length = 1 ∧
    pigDB.piglet_records.length = 0 ∧ pigDB.pig_birth_history.length = 0 :=
  ⟨rfl, rfl, rfl, rfl, rfl⟩

/-- C6 amended: every precondition violation is returned as a
structured failure rather than thrown, and any failure whose error
arises from the validations that precede the insert loop leaves the
store completely unchanged; only the two errors raised inside the
insert loop can leave rows of the failed call persisted. -/
theorem piglet_preloop_failure_no_writes (db : DB) (pigletz : List PigletInput)
    (fid uid : String) (now : Int) (db2 : DB) (e : PigletError)
    (h : createPigletRecord db pigletz fid uid now = (db2, .failed e))
    (he : isPreLoopError e = true) :
    db2 = db := by
  unfold createPigletRecord at h
  cases hpre : pigletPrechecks db pigletz fid with
  | some e0 =>
    rw [hpre] at h
    simp at h
    exact h.1.symm
  | none =>
    rw [hpre] at h
    dsimp only at h
    rcases hloop : pigletInsertLoop
        (foundBreedingRecords db (dedup (pigletz.filterMap (fun p => p.breeding_record_id))) fid)
        fid pigletz db pigletz with ⟨dbL, res⟩
    rw [hloop] at h
    cases res with
    | error e1 =>
      simp at h
      rcases h with ⟨h1, he1⟩
      have hk := pigletInsertLoop_error_kind _ _ _ _ _ _ _ hloop
      rw [← he1] at he
      rw [hk] at he
      exact absurd he (by simp)
    | ok ins => simp at h

/-- C6 amended witness: an empty batch fails before the loop and
leaves the store unchanged. -/
theorem piglet_preloop_failure_no_writes_witness :
    (baseDB : DB) = baseDB :=
  piglet_preloop_failure_no_writes baseDB [] "F1" "u1" 0 baseDB .emptyBatch rfl rfl

/-- C9: any batch containing an entry whose parent_female_id is absent
or differs from the sow of every matching breeding record cannot
succeed: the unconditional sow match comparison in the insert loop (or
an earlier validation) fails the call. -/
theorem piglet_requires_matching_sow (db : DB) (pigletz : List PigletInput)
    (fid uid : String) (now : Int) (p : PigletInput)
    (hp : p ∈ pigletz)
    (hmis : ∀ r ∈ db.breeding_records, some r.id = p.breeding_record_id →
      p.parent_female_id ≠ some r.sow_id) :
    ((createPigletRecord db pigletz fid uid now).2).isSuccess = false := by
  unfold createPigletRecord
  cases hpre : pigletPrechecks db pigletz fid with
  | some e => rfl
  | none =>
    dsimp only
    rcases hloop : pigletInsertLoop
        (foundBreedingRecords db (dedup (pigletz.filterMap (fun p => p.breeding_record_id))) fid)
        fid pigletz db pigletz with ⟨dbL, res⟩
    rw [hloop]
    cases res with
    | error e1 => rfl
    | ok ins =>
      exfalso
      refine pigletInsertLoop_no_ok_of_mismatch _ fid pigletz p ?_ pigletz db hp dbL ins hloop
      intro r hr hid
      exact hmis r (List.mem_filter.mp hr).1 hid

/-- C9 witness: a single entry batch that passes the up front required
field check (it has piglet_number and breeding_record_id) but omits
parent_female_id fails. -/
theorem piglet_requires_matching_sow_witness :
    ((createPigletRecord pigDB [pigIn "4" none] "F1" "u1" 0).2).isSuccess = false :=
  piglet_requires_matching_sow pigDB [pigIn "4" none] "F1" "u1" 0 (pigIn "4" none)
    (by decide) (by decide)

/-- C10: a single call whose batch carries the same piglet number
twice, with that number not yet stored for the farm, passes the
duplicate check (which only consults persisted rows) and both entries
are inserted. -/
theorem duplicate_numbers_within_batch :
    ((createPigletRecord pigDB [pigIn "3" (some "S1"), pigIn "3" (some "S1")] "F1" "u1" 0).2).isSuccess = true ∧
    ((createPigletRecord pigDB [pigIn "3" (some "S1"), pigIn "3" (some "S1")] "F1" "u1" 0).1.piglet_records.filter
        (fun k => k.piglet_number == "3" && k.farm_id == "F1" && !k.is_deleted)).length = 2 ∧
    (pigDB.piglet_records.filter (fun k => k.piglet_number == "3")).length = 0 :=
  ⟨rfl, rfl, rfl⟩

end PigMaster
